import Mathlib

/-!
Verification of the SARSAT beacon transmitter firmware core
(`newmainXCDSC_final5_cor.c`).

The development shallowly embeds the pure computational core of the
firmware: the BCH encoders, the beacon-frame builder, the precomputed
DAC lookup tables, and the Timer1 interrupt state machine.  Machine
integers are modelled as `Nat`/`Int`; the `uint16_t` cast and the
arithmetic right shift of the C source are made explicit.  The
interrupt handler is modelled as an `Option`-valued step function: a
lookup outside the bounds of one of the constant tables yields `none`,
so totality of the handler on reachable states is a theorem rather
than an assumption.
-/

namespace Sarsat

/-! ## Compile-time constants (from the C `#define` block) -/

def CARRIER_FREQ_HZ : Nat := 40000
def SYMBOL_RATE_HZ : Nat := 400
def SAMPLE_RATE_HZ : Nat := 200000
def SAMPLES_PER_SYMBOL : Nat := SAMPLE_RATE_HZ / SYMBOL_RATE_HZ
def DAC_OFFSET : Int := 2048

def COS_1P1_Q15 : Int := 14865
def SIN_1P1_Q15 : Int := 29197

def PREAMBLE_DURATION_MS : Nat := 160
def PREAMBLE_PHASE : Nat := 0
def DATA_PHASE : Nat := 1
def PREAMBLE_SAMPLES : Nat := PREAMBLE_DURATION_MS * SAMPLE_RATE_HZ / 1000
def IDLE_SYMBOLS : Nat := 2

def SYNC_BITS : Nat := 15
def FRAME_SYNC_BITS : Nat := 9
def COUNTRY_BITS : Nat := 10
def AIRCRAFT_BITS : Nat := 24
def POSITION_BITS : Nat := 21
def OFFSET_BITS : Nat := 20
def BCH_POS_BITS : Nat := 10
def BCH_ID_BITS : Nat := 12
def MESSAGE_BITS : Nat :=
  SYNC_BITS + FRAME_SYNC_BITS + COUNTRY_BITS + AIRCRAFT_BITS +
    POSITION_BITS + OFFSET_BITS + BCH_POS_BITS + BCH_ID_BITS

def BCH_POLY : Nat := 0x3B3

/-! ## BCH encoders -/

/-- One iteration of the LFSR loop body of `bch_encode_31_21`:
`msb` is bit 9 of the register before shifting, the register is
shifted left by one with the incoming bit ORed into the LSB, and the
register is XORed with the generator polynomial when `msb XOR bit`
is 1.  The register is a C `uint32_t`; over the 21 iterations it never
comes close to `2^32`, so plain `Nat` is a faithful model. -/
def bch_step (reg bit : Nat) : Nat :=
  let msb := (reg >>> 9) &&& 1
  let r := (reg <<< 1) ||| bit
  if msb ^^^ bit = 1 then r ^^^ BCH_POLY else r

/-- The `for (int i = 20; i >= 0; i--)` loop of `bch_encode_31_21`:
`bch_loop reg data (i+1)` processes bits `i, i-1, ..., 0` of `data`,
most significant first. -/
def bch_loop : Nat → Nat → Nat → Nat
  | reg, _, 0 => reg
  | reg, data, i + 1 => bch_loop (bch_step reg ((data >>> i) &&& 1)) data i

/-- The C function `bch_encode_31_21`: mask the input to 21 bits, run
the LFSR over the 21 input bits MSB first, return the low 10 bits. -/
def bch_encode_31_21 (data : Nat) : Nat :=
  bch_loop 0 (data &&& 0x1FFFFF) 21 &&& 0x3FF

/-- The C function `bch_encode_12_12`: `return data;` on a `uint16_t`
argument.  There is no masking inside the function. -/
def bch_encode_12_12 (data : Nat) : Nat :=
  data

/-! ## Reference model of the BCH(31,21) encoder, from the specification

Section 4.1 of the specification describes the encoder as operating on
a genuine 10-bit shift register: the register is initialized to 0, and
on each step it is shifted left by one with the incoming bit ORed into
the new LSB (the former bit 9, captured as `msb` beforehand, falls off
the 10-bit register), then conditionally XORed with the generator
polynomial `0x3B3`; the low 10 bits of the final register are
returned.  The definitions below follow those words; keeping the
register reduced modulo `2^10` at every step is the one point where
they differ textually from the C source, which lets the register grow
inside a `uint32_t`. -/

/-- Reference LFSR step over a true 10-bit register, following the
specification text of section 4.1. -/
def bch_spec_step (reg bit : Nat) : Nat :=
  let msb := (reg >>> 9) &&& 1
  let r := ((reg <<< 1) ||| bit) % 1024
  if msb ^^^ bit = 1 then r ^^^ BCH_POLY else r

/-- Reference LFSR loop over the 10-bit register. -/
def bch_spec_loop : Nat → Nat → Nat → Nat
  | reg, _, 0 => reg
  | reg, data, i + 1 => bch_spec_loop (bch_spec_step reg ((data >>> i) &&& 1)) data i

/-- Reference BCH(31,21) encoder from the specification: mask the
input to 21 bits, run the 10-bit LFSR over the 21 input bits MSB
first, return the low 10 bits of the register. -/
def bch31_21_spec (data : Nat) : Nat :=
  bch_spec_loop 0 (data &&& 0x1FFFFF) 21 &&& 0x3FF

/-! ## Beacon frame construction -/

def country_code : Nat := 0x2A5
def aircraft_id : Nat := 0x00A5F3C
def position : Nat := 0x1A5F3
def position_offset : Nat := 0x0A5F3
def frame_sync : Nat := 0x1AC

/-- One field-serialization loop of `build_beacon_frame`:
`for (int i = w-1; i >= 0; i--) beacon_frame[bit_index++] = (v >> i) & 1;`.
The state is the buffer contents together with the running
`bit_index`. -/
def writeBitsMSB (st : List Nat × Nat) (w v : Nat) : List Nat × Nat :=
  (List.range w).foldl
    (fun st i => (st.1.set st.2 ((v >>> (w - 1 - i)) &&& 1), st.2 + 1)) st

/-- The C function `build_beacon_frame`.  The global array
`beacon_frame[MESSAGE_BITS]` starts zero-initialized; the function
writes the eight segments in order at the running bit index.  The
result is the final buffer together with the final `bit_index`. -/
def build_beacon_frame : List Nat × Nat :=
  let st0 : List Nat × Nat := (List.replicate MESSAGE_BITS 0, 0)
  let st1 := (List.range SYNC_BITS).foldl (fun st _ => (st.1.set st.2 1, st.2 + 1)) st0
  let st2 := writeBitsMSB st1 FRAME_SYNC_BITS frame_sync
  let st3 := writeBitsMSB st2 COUNTRY_BITS country_code
  let st4 := writeBitsMSB st3 AIRCRAFT_BITS aircraft_id
  let st5 := writeBitsMSB st4 POSITION_BITS position
  let st6 := writeBitsMSB st5 OFFSET_BITS position_offset
  let st7 := writeBitsMSB st6 BCH_POS_BITS (bch_encode_31_21 position)
  writeBitsMSB st7 BCH_ID_BITS (bch_encode_12_12 (aircraft_id &&& 0xFFF))

/-- The global array `beacon_frame` after `build_beacon_frame` ran. -/
def beacon_frame : List Nat := build_beacon_frame.1

/-- MSB-first bit expansion of the low `w` bits of `v`, the sequence
of values a serialization loop of `build_beacon_frame` writes. -/
def bitsMSB (w v : Nat) : List Nat :=
  (List.range w).map (fun i => (v >>> (w - 1 - i)) &&& 1)

/-! ## Precomputed DAC tables

In the C source every table entry is the expression
`(uint16_t)(DAC_OFFSET + ((product) >> 18))` evaluated on `int32_t`
operands.  `sar18` is the arithmetic right shift by 18 (floor
division) and `u16_of_int` the conversion to `uint16_t`
(reduction modulo `2^16`).  The products stay far below `2^31`, so
`Int` is a faithful model of `int32_t` here. -/

def sar18 (x : Int) : Int := Int.fdiv x (2 ^ 18)

def u16_of_int (x : Int) : Nat := (x % 65536).toNat

/-- The C array `precomputed_dac[5]` (unmodulated carrier). -/
def precomputed_dac : List Nat :=
  [ u16_of_int (DAC_OFFSET + sar18 (32767 * COS_1P1_Q15)),
    u16_of_int (DAC_OFFSET + sar18 (10126 * COS_1P1_Q15)),
    u16_of_int (DAC_OFFSET + sar18 ((-26510) * COS_1P1_Q15)),
    u16_of_int (DAC_OFFSET + sar18 ((-26510) * COS_1P1_Q15)),
    u16_of_int (DAC_OFFSET + sar18 (10126 * COS_1P1_Q15)) ]

/-- The C array `precomputed_symbol_dac[2][5]`: row 0 is symbol 0
(+1.1 rad, difference of products), row 1 is symbol 1 (-1.1 rad, sum
of products). -/
def precomputed_symbol_dac : List (List Nat) :=
  [ [ u16_of_int (DAC_OFFSET + sar18 (32767 * COS_1P1_Q15 - 0 * SIN_1P1_Q15)),
      u16_of_int (DAC_OFFSET + sar18 (10126 * COS_1P1_Q15 - 31163 * SIN_1P1_Q15)),
      u16_of_int (DAC_OFFSET + sar18 ((-26510) * COS_1P1_Q15 - 19260 * SIN_1P1_Q15)),
      u16_of_int (DAC_OFFSET + sar18 ((-26510) * COS_1P1_Q15 - (-19260) * SIN_1P1_Q15)),
      u16_of_int (DAC_OFFSET + sar18 (10126 * COS_1P1_Q15 - (-31163) * SIN_1P1_Q15)) ],
    [ u16_of_int (DAC_OFFSET + sar18 (32767 * COS_1P1_Q15 + 0 * SIN_1P1_Q15)),
      u16_of_int (DAC_OFFSET + sar18 (10126 * COS_1P1_Q15 + 31163 * SIN_1P1_Q15)),
      u16_of_int (DAC_OFFSET + sar18 ((-26510) * COS_1P1_Q15 + 19260 * SIN_1P1_Q15)),
      u16_of_int (DAC_OFFSET + sar18 ((-26510) * COS_1P1_Q15 + (-19260) * SIN_1P1_Q15)),
      u16_of_int (DAC_OFFSET + sar18 (10126 * COS_1P1_Q15 + (-31163) * SIN_1P1_Q15)) ] ]

/-! ## Transmitter state machine (`_T1Interrupt`) -/

/-- The mutable globals read and written by the Timer1 interrupt
handler. -/
structure TxState where
  tx_phase : Nat
  carrier_phase : Nat
  preamble_count : Nat
  idle_count : Nat
  sample_count : Nat
  symbol_index : Nat
  debug_dac_value : Nat
  deriving Repr, DecidableEq

/-- The initial zeroed state: every global starts at its C
initializer, which is 0 (`tx_phase = PREAMBLE_PHASE`). -/
def initState : TxState :=
  { tx_phase := PREAMBLE_PHASE, carrier_phase := 0, preamble_count := 0,
    idle_count := 0, sample_count := 0, symbol_index := 0, debug_dac_value := 0 }

/-- One invocation of `_T1Interrupt`.  Table reads go through
`List.get?`, so an index outside a table makes the tick fail with
`none`; the DAC hardware write is reflected in `debug_dac_value`,
which the C handler updates with the same value. -/
def tick (s : TxState) : Option TxState :=
  if s.tx_phase = PREAMBLE_PHASE then
    (precomputed_dac.get? s.carrier_phase).bind fun dac_val =>
      if s.preamble_count + 1 ≥ PREAMBLE_SAMPLES then
        some { s with tx_phase := DATA_PHASE,
                      carrier_phase := if s.carrier_phase < 4 then s.carrier_phase + 1 else 0,
                      preamble_count := 0, symbol_index := 0, sample_count := 0,
                      debug_dac_value := dac_val }
      else
        some { s with carrier_phase := if s.carrier_phase < 4 then s.carrier_phase + 1 else 0,
                      preamble_count := s.preamble_count + 1,
                      debug_dac_value := dac_val }
  else
    (if s.symbol_index < MESSAGE_BITS then beacon_frame.get? s.symbol_index
     else some 0).bind fun current_symbol =>
      (precomputed_symbol_dac.get? current_symbol).bind fun row =>
        (row.get? s.carrier_phase).bind fun dac_val =>
          if s.sample_count + 1 ≥ SAMPLES_PER_SYMBOL then
            if s.symbol_index < MESSAGE_BITS then
              some { s with carrier_phase := if s.carrier_phase < 4 then s.carrier_phase + 1 else 0,
                            sample_count := 0, symbol_index := s.symbol_index + 1,
                            debug_dac_value := dac_val }
            else
              if s.idle_count + 1 ≥ IDLE_SYMBOLS then
                some { s with tx_phase := PREAMBLE_PHASE,
                              carrier_phase := if s.carrier_phase < 4 then s.carrier_phase + 1 else 0,
                              sample_count := 0, idle_count := 0,
                              debug_dac_value := dac_val }
              else
                some { s with carrier_phase := if s.carrier_phase < 4 then s.carrier_phase + 1 else 0,
                              sample_count := 0, idle_count := s.idle_count + 1,
                              debug_dac_value := dac_val }
          else
            some { s with carrier_phase := if s.carrier_phase < 4 then s.carrier_phase + 1 else 0,
                          sample_count := s.sample_count + 1,
                          debug_dac_value := dac_val }

/-- Iterate the tick handler `n` times, failing if any tick fails. -/
def tickN : Nat → TxState → Option TxState
  | 0, s => some s
  | n + 1, s => (tickN n s).bind tick

/-- The state after `n` ticks from the initial zeroed state. -/
def run (n : Nat) : Option TxState := tickN n initState

/-- The between-ticks counter invariant of the transmitter state
machine. -/
def Inv (s : TxState) : Prop :=
  s.carrier_phase ≤ 4 ∧ s.symbol_index ≤ 121 ∧ s.sample_count < 500 ∧
    s.preamble_count < 32000 ∧ s.idle_count < 2

/-! ## Basic facts about the constants and tables -/

lemma MESSAGE_BITS_eq : MESSAGE_BITS = 121 := rfl

lemma PREAMBLE_SAMPLES_eq : PREAMBLE_SAMPLES = 32000 := rfl

lemma SAMPLES_PER_SYMBOL_eq : SAMPLES_PER_SYMBOL = 500 := rfl

lemma precomputed_dac_length : precomputed_dac.length = 5 := rfl

lemma precomputed_symbol_dac_length : precomputed_symbol_dac.length = 2 := rfl

lemma exists_get?_of_lt {α : Type} (l : List α) (i : Nat) (h : i < l.length) :
    ∃ v, l.get? i = some v := by
  cases hv : l.get? i with
  | none => exact absurd (List.get?_eq_none.mp hv) (by omega)
  | some v => exact ⟨v, rfl⟩

/-! ## Bitwise helper lemmas -/

lemma and_one_lt_two (x : Nat) : x &&& 1 < 2 := by
  rw [Nat.and_one_is_mod]; omega

lemma xor_shiftRight (x y n : Nat) : (x ^^^ y) >>> n = (x >>> n) ^^^ (y >>> n) := by
  apply Nat.eq_of_testBit_eq; intro i
  simp [Nat.testBit_shiftRight, Nat.testBit_xor]

lemma xor_and_right (x y z : Nat) : (x ^^^ y) &&& z = (x &&& z) ^^^ (y &&& z) := by
  apply Nat.eq_of_testBit_eq; intro i
  simp only [Nat.testBit_and, Nat.testBit_xor]
  cases x.testBit i <;> cases y.testBit i <;> cases z.testBit i <;> rfl

lemma xor_shiftLeft (x y n : Nat) : (x ^^^ y) <<< n = (x <<< n) ^^^ (y <<< n) := by
  apply Nat.eq_of_testBit_eq; intro i
  simp only [Nat.testBit_shiftLeft, Nat.testBit_xor]
  by_cases h : n ≤ i <;> simp [h]

lemma xor4 (a b c d : Nat) : (a ^^^ b) ^^^ (c ^^^ d) = (a ^^^ c) ^^^ (b ^^^ d) := by
  apply Nat.eq_of_testBit_eq; intro i
  simp only [Nat.testBit_xor]
  cases a.testBit i <;> cases b.testBit i <;> cases c.testBit i <;> cases d.testBit i <;> rfl

lemma xor_lt_two {a b : Nat} (ha : a < 2) (hb : b < 2) : a ^^^ b < 2 := by
  interval_cases a <;> interval_cases b <;> decide

lemma shiftLeft_or_eq_xor (r b : Nat) (hb : b < 2) : (r <<< 1) ||| b = (r <<< 1) ^^^ b := by
  apply Nat.eq_of_testBit_eq; intro i
  cases i with
  | zero =>
    have h0 : (r <<< 1) % 2 = 0 := by rw [Nat.shiftLeft_eq]; omega
    simp only [Nat.testBit_or, Nat.testBit_xor, Nat.testBit_zero]
    simp [h0]
    omega
  | succ i =>
    have hbf : b.testBit (i + 1) = false :=
      Nat.testBit_lt_two_pow (lt_of_lt_of_le hb (by
        calc (2 : Nat) = 2 ^ 1 := rfl
        _ ≤ 2 ^ (i + 1) := Nat.pow_le_pow_right (by omega) (by omega)))
    simp [Nat.testBit_or, Nat.testBit_xor, hbf]

lemma shiftLeft_or_bit (r b : Nat) (hb : b < 2) : (r <<< 1) ||| b = 2 * r + b := by
  interval_cases b
  · rw [Nat.or_zero, Nat.shiftLeft_eq]; omega
  · apply Nat.eq_of_testBit_eq; intro i
    cases i with
    | zero =>
      have h0 : (r <<< 1) % 2 = 0 := by rw [Nat.shiftLeft_eq]; omega
      have h1 : (2 * r + 1) % 2 = 1 := by omega
      simp [Nat.testBit_or, Nat.testBit_zero, h0, h1]
    | succ i =>
      have hdiv : r <<< 1 / 2 = r := by rw [Nat.shiftLeft_eq]; omega
      have hdiv2 : (2 * r + 1) / 2 = r := by omega
      simp only [Nat.testBit_or]
      simp [Nat.testBit_add_one, hdiv, hdiv2]

lemma xor_right_comm (a b c : Nat) : (a ^^^ b) ^^^ c = (a ^^^ c) ^^^ b := by
  rw [Nat.xor_assoc, Nat.xor_comm b c, ← Nat.xor_assoc]

lemma xor_xor_cancel (a b c : Nat) : (a ^^^ c) ^^^ (b ^^^ c) = a ^^^ b := by
  rw [xor4, Nat.xor_self, Nat.xor_zero]

lemma xor_poly_mod (x : Nat) : (x ^^^ BCH_POLY) % 1024 = (x % 1024) ^^^ BCH_POLY := by
  have h1024 : (1024 : Nat) = 2 ^ 10 := by norm_num
  have hp : ∀ i, 10 ≤ i → Nat.testBit BCH_POLY i = false := by
    intro i hi
    exact Nat.testBit_lt_two_pow (by
      calc BCH_POLY < 2 ^ 10 := by norm_num [BCH_POLY]
      _ ≤ 2 ^ i := Nat.pow_le_pow_right (by omega) hi)
  apply Nat.eq_of_testBit_eq; intro i
  simp only [h1024, Nat.testBit_mod_two_pow, Nat.testBit_xor]
  by_cases h : i < 10
  · simp [h]
  · simp [h, hp i (by omega)]

/-! ## GF(2)-linearity of the BCH(31,21) LFSR -/

lemma bch_step_linear (r1 r2 b1 b2 : Nat) (hb1 : b1 < 2) (hb2 : b2 < 2) :
    bch_step (r1 ^^^ r2) (b1 ^^^ b2) = bch_step r1 b1 ^^^ bch_step r2 b2 := by
  unfold bch_step
  have hm : ((r1 ^^^ r2) >>> 9) &&& 1 = ((r1 >>> 9) &&& 1) ^^^ ((r2 >>> 9) &&& 1) := by
    rw [xor_shiftRight, xor_and_right]
  have hro : ((r1 ^^^ r2) <<< 1) ||| (b1 ^^^ b2) =
      ((r1 <<< 1) ||| b1) ^^^ ((r2 <<< 1) ||| b2) := by
    rw [shiftLeft_or_eq_xor _ _ (xor_lt_two hb1 hb2), shiftLeft_or_eq_xor _ _ hb1,
      shiftLeft_or_eq_xor _ _ hb2, xor_shiftLeft, xor4]
  have hc : (((r1 ^^^ r2) >>> 9) &&& 1) ^^^ (b1 ^^^ b2) =
      (((r1 >>> 9) &&& 1) ^^^ b1) ^^^ (((r2 >>> 9) &&& 1) ^^^ b2) := by
    rw [hm, xor4]
  simp only [hro, hc]
  have hc1 : ((r1 >>> 9) &&& 1) ^^^ b1 = 0 ∨ ((r1 >>> 9) &&& 1) ^^^ b1 = 1 := by
    have := xor_lt_two (and_one_lt_two (r1 >>> 9)) hb1; omega
  have hc2 : ((r2 >>> 9) &&& 1) ^^^ b2 = 0 ∨ ((r2 >>> 9) &&& 1) ^^^ b2 = 1 := by
    have := xor_lt_two (and_one_lt_two (r2 >>> 9)) hb2; omega
  rcases hc1 with h1 | h1 <;> rcases hc2 with h2 | h2 <;> simp only [h1, h2]
  · rw [if_neg (by decide), if_neg (by decide), if_neg (by decide)]
  · rw [if_pos (by decide), if_neg (by decide), if_pos (by decide), Nat.xor_assoc]
  · rw [if_pos (by decide), if_pos (by decide), if_neg (by decide), xor_right_comm]
  · rw [if_neg (by decide), if_pos (by decide), if_pos (by decide), xor_xor_cancel]

lemma bit_xor (d1 d2 i : Nat) :
    ((d1 ^^^ d2) >>> i) &&& 1 = ((d1 >>> i) &&& 1) ^^^ ((d2 >>> i) &&& 1) := by
  rw [xor_shiftRight, xor_and_right]

lemma bch_loop_linear (i : Nat) : ∀ (r1 r2 d1 d2 : Nat),
    bch_loop (r1 ^^^ r2) (d1 ^^^ d2) i = bch_loop r1 d1 i ^^^ bch_loop r2 d2 i := by
  induction i with
  | zero => intro r1 r2 d1 d2; rfl
  | succ i ih =>
    intro r1 r2 d1 d2
    simp only [bch_loop]
    rw [bit_xor, bch_step_linear _ _ _ _ (and_one_lt_two _) (and_one_lt_two _)]
    exact ih _ _ _ _

/-! ## Equivalence of the C encoder with the 10-bit-register model -/

lemma bch_spec_step_mod (r b : Nat) (hb : b < 2) :
    bch_spec_step (r % 1024) b = bch_step r b % 1024 := by
  unfold bch_spec_step bch_step
  have hmsb : ((r % 1024) >>> 9) &&& 1 = (r >>> 9) &&& 1 := by
    rw [Nat.and_one_is_mod, Nat.and_one_is_mod, Nat.shiftRight_eq_div_pow,
      Nat.shiftRight_eq_div_pow]
    have h9 : (2 : Nat) ^ 9 = 512 := by norm_num
    rw [h9]; omega
  have hor : (((r % 1024) <<< 1) ||| b) % 1024 = ((r <<< 1) ||| b) % 1024 := by
    rw [shiftLeft_or_bit _ _ hb, shiftLeft_or_bit _ _ hb]; omega
  rw [hmsb]
  by_cases hc : ((r >>> 9) &&& 1) ^^^ b = 1
  · rw [if_pos hc, if_pos hc, hor, xor_poly_mod]
  · rw [if_neg hc, if_neg hc, hor]

lemma bch_spec_loop_mod (i : Nat) : ∀ (r d : Nat),
    bch_spec_loop (r % 1024) d i = bch_loop r d i % 1024 := by
  induction i with
  | zero => intro r d; rfl
  | succ i ih =>
    intro r d
    simp only [bch_spec_loop, bch_loop]
    rw [bch_spec_step_mod _ _ (and_one_lt_two _)]
    exact ih _ _

/-! ## State machine helper lemmas -/

lemma carrier_advance (c : Nat) (h : c ≤ 4) : (if c < 4 then c + 1 else 0) = (c + 1) % 5 := by
  rcases Nat.lt_or_ge c 4 with h4 | h4
  · rw [if_pos h4]; omega
  · rw [if_neg (by omega)]; omega

set_option maxRecDepth 40000 in
lemma beacon_frame_length : beacon_frame.length = 121 := by decide

set_option maxRecDepth 40000 in
lemma beacon_frame_bits : ∀ b ∈ beacon_frame, b < 2 := by decide

lemma beacon_frame_get_lt (i : Nat) (h : i < 121) :
    ∃ b, beacon_frame.get? i = some b ∧ b < 2 := by
  obtain ⟨b, hb⟩ := exists_get?_of_lt beacon_frame i (by rw [beacon_frame_length]; omega)
  exact ⟨b, hb, beacon_frame_bits b (List.get?_mem hb)⟩

lemma data_symbol_lookup (s : TxState) (hsi : s.symbol_index ≤ 121) :
    ∃ b, (if s.symbol_index < MESSAGE_BITS then beacon_frame.get? s.symbol_index
          else some 0) = some b ∧ b < 2 := by
  by_cases h : s.symbol_index < MESSAGE_BITS
  · rw [if_pos h]
    exact beacon_frame_get_lt _ (by rw [MESSAGE_BITS_eq] at h; omega)
  · rw [if_neg h]
    exact ⟨0, rfl, by omega⟩

lemma symbol_row_lookup (b : Nat) (hb : b < 2) :
    ∃ row, precomputed_symbol_dac.get? b = some row ∧ row.length = 5 := by
  interval_cases b
  · exact ⟨_, rfl, rfl⟩
  · exact ⟨_, rfl, rfl⟩

lemma psd_row_length : ∀ r ∈ precomputed_symbol_dac, r.length = 5 := by decide

/-- Effect of one tick on a preamble-phase state with a valid carrier
phase: the carrier advances modulo 5 and either the preamble counter
is incremented or the handler transitions to the data phase. -/
lemma tick_preamble_fields (s : TxState) (hph : s.tx_phase = PREAMBLE_PHASE)
    (hcp : s.carrier_phase ≤ 4) :
    ∃ t, tick s = some t ∧ t.carrier_phase = (s.carrier_phase + 1) % 5 ∧
      (if s.preamble_count + 1 < 32000 then
        t.tx_phase = PREAMBLE_PHASE ∧ t.preamble_count = s.preamble_count + 1 ∧
          t.sample_count = s.sample_count ∧ t.symbol_index = s.symbol_index ∧
          t.idle_count = s.idle_count
       else
        t.tx_phase = DATA_PHASE ∧ t.preamble_count = 0 ∧ t.sample_count = 0 ∧
          t.symbol_index = 0 ∧ t.idle_count = s.idle_count) := by
  obtain ⟨v, hv⟩ := exists_get?_of_lt precomputed_dac s.carrier_phase
    (by rw [precomputed_dac_length]; omega)
  unfold tick
  rw [if_pos hph, hv]
  simp only [Option.some_bind]
  by_cases hpc : s.preamble_count + 1 < 32000
  · rw [if_neg (c := s.preamble_count + 1 ≥ PREAMBLE_SAMPLES)
        (by rw [PREAMBLE_SAMPLES_eq]; omega)]
    refine ⟨_, rfl, by simp [carrier_advance _ hcp], ?_⟩
    rw [if_pos hpc]
    simp [hph]
  · rw [if_pos (c := s.preamble_count + 1 ≥ PREAMBLE_SAMPLES)
        (by rw [PREAMBLE_SAMPLES_eq]; omega)]
    refine ⟨_, rfl, by simp [carrier_advance _ hcp], ?_⟩
    rw [if_neg hpc]
    simp

/-- Effect of one tick on a data-phase state with valid carrier phase
and symbol index: the carrier advances modulo 5 and the sample,
symbol and idle counters evolve as in the C handler. -/
lemma tick_data_fields (s : TxState) (hph : s.tx_phase ≠ PREAMBLE_PHASE)
    (hcp : s.carrier_phase ≤ 4) (hsi : s.symbol_index ≤ 121) :
    ∃ t, tick s = some t ∧ t.carrier_phase = (s.carrier_phase + 1) % 5 ∧
      t.preamble_count = s.preamble_count ∧
      (if s.sample_count + 1 < 500 then
        t.tx_phase = s.tx_phase ∧ t.sample_count = s.sample_count + 1 ∧
          t.symbol_index = s.symbol_index ∧ t.idle_count = s.idle_count
       else if s.symbol_index < 121 then
        t.tx_phase = s.tx_phase ∧ t.sample_count = 0 ∧
          t.symbol_index = s.symbol_index + 1 ∧ t.idle_count = s.idle_count
       else if s.idle_count + 1 < 2 then
        t.tx_phase = s.tx_phase ∧ t.sample_count = 0 ∧
          t.symbol_index = s.symbol_index ∧ t.idle_count = s.idle_count + 1
       else
        t.tx_phase = PREAMBLE_PHASE ∧ t.sample_count = 0 ∧
          t.symbol_index = s.symbol_index ∧ t.idle_count = 0) := by
  obtain ⟨b, hb, hb2⟩ := data_symbol_lookup s hsi
  obtain ⟨row, hrow, hrl⟩ := symbol_row_lookup b hb2
  obtain ⟨v, hv⟩ := exists_get?_of_lt row s.carrier_phase (by rw [hrl]; omega)
  unfold tick
  rw [if_neg hph, hb]
  simp only [Option.some_bind]
  rw [hrow]
  simp only [Option.some_bind]
  rw [hv]
  simp only [Option.some_bind]
  by_cases hsc : s.sample_count + 1 < 500
  · rw [if_neg (c := s.sample_count + 1 ≥ SAMPLES_PER_SYMBOL)
        (by rw [SAMPLES_PER_SYMBOL_eq]; omega)]
    refine ⟨_, rfl, by simp [carrier_advance _ hcp], by simp, ?_⟩
    rw [if_pos hsc]
    simp
  · rw [if_pos (c := s.sample_count + 1 ≥ SAMPLES_PER_SYMBOL)
        (by rw [SAMPLES_PER_SYMBOL_eq]; omega)]
    by_cases hsym : s.symbol_index < MESSAGE_BITS
    · rw [if_pos (c := s.symbol_index < MESSAGE_BITS) hsym]
      refine ⟨_, rfl, by simp [carrier_advance _ hcp], by simp, ?_⟩
      rw [if_neg hsc, if_pos (by rw [MESSAGE_BITS_eq] at hsym; exact hsym)]
      simp
    · rw [if_neg (c := s.symbol_index < MESSAGE_BITS) hsym]
      by_cases hic : s.idle_count + 1 < 2
      · rw [if_neg (c := s.idle_count + 1 ≥ IDLE_SYMBOLS) (by
            show ¬ s.idle_count + 1 ≥ 2; omega)]
        refine ⟨_, rfl, by simp [carrier_advance _ hcp], by simp, ?_⟩
        rw [if_neg hsc, if_neg (by rw [MESSAGE_BITS_eq] at hsym; exact hsym), if_pos hic]
        simp
      · rw [if_pos (c := s.idle_count + 1 ≥ IDLE_SYMBOLS) (by
            show s.idle_count + 1 ≥ 2; omega)]
        refine ⟨_, rfl, by simp [carrier_advance _ hcp], by simp, ?_⟩
        rw [if_neg hsc, if_neg (by rw [MESSAGE_BITS_eq] at hsym; exact hsym), if_neg hic]
        simp

/-- Whenever the tick handler completes, the carrier phase has
advanced by exactly one step modulo 5; completion forces the carrier
phase to index one of the 5-entry tables. -/
lemma tick_some_carrier (s t : TxState) (h : tick s = some t) :
    t.carrier_phase = (s.carrier_phase + 1) % 5 := by
  unfold tick at h
  by_cases hph : s.tx_phase = PREAMBLE_PHASE
  · rw [if_pos hph] at h
    cases hd : precomputed_dac.get? s.carrier_phase with
    | none => rw [hd, Option.none_bind] at h; exact Option.noConfusion h
    | some v =>
      rw [hd] at h
      simp only [Option.some_bind] at h
      obtain ⟨hlt, -⟩ := List.get?_eq_some.mp hd
      rw [precomputed_dac_length] at hlt
      split at h <;>
        (cases h; simp [carrier_advance _ (by omega : s.carrier_phase ≤ 4)])
  · rw [if_neg hph] at h
    cases hb : (if s.symbol_index < MESSAGE_BITS then beacon_frame.get? s.symbol_index
        else some 0) with
    | none => rw [hb, Option.none_bind] at h; exact Option.noConfusion h
    | some b =>
      rw [hb] at h
      simp only [Option.some_bind] at h
      cases hrow : precomputed_symbol_dac.get? b with
      | none => rw [hrow, Option.none_bind] at h; exact Option.noConfusion h
      | some row =>
        rw [hrow] at h
        simp only [Option.some_bind] at h
        cases hv : row.get? s.carrier_phase with
        | none => rw [hv, Option.none_bind] at h; exact Option.noConfusion h
        | some v =>
          rw [hv] at h
          simp only [Option.some_bind] at h
          obtain ⟨hlt, -⟩ := List.get?_eq_some.mp hv
          rw [psd_row_length row (List.get?_mem hrow)] at hlt
          split at h
          · split at h
            · cases h; simp [carrier_advance _ (by omega : s.carrier_phase ≤ 4)]
            · split at h <;>
                (cases h; simp [carrier_advance _ (by omega : s.carrier_phase ≤ 4)])
          · cases h; simp [carrier_advance _ (by omega : s.carrier_phase ≤ 4)]

/-- The counter invariant is preserved by a successful tick, and a
tick from an invariant state always succeeds. -/
lemma tick_inv (s : TxState) (h : Inv s) : ∃ t, tick s = some t ∧ Inv t := by
  obtain ⟨h1, h2, h3, h4, h5⟩ := h
  by_cases hph : s.tx_phase = PREAMBLE_PHASE
  · obtain ⟨t, ht, hcar, hfields⟩ := tick_preamble_fields s hph h1
    refine ⟨t, ht, ?_⟩
    by_cases hpc : s.preamble_count + 1 < 32000
    · rw [if_pos hpc] at hfields
      obtain ⟨-, e1, e2, e3, e4⟩ := hfields
      exact ⟨by omega, by omega, by omega, by omega, by omega⟩
    · rw [if_neg hpc] at hfields
      obtain ⟨-, e1, e2, e3, e4⟩ := hfields
      exact ⟨by omega, by omega, by omega, by omega, by omega⟩
  · obtain ⟨t, ht, hcar, hpc, hfields⟩ := tick_data_fields s hph h1 h2
    refine ⟨t, ht, ?_⟩
    by_cases hsc : s.sample_count + 1 < 500
    · rw [if_pos hsc] at hfields
      obtain ⟨-, e1, e2, e3⟩ := hfields
      exact ⟨by omega, by omega, by omega, by omega, by omega⟩
    · rw [if_neg hsc] at hfields
      by_cases hsym : s.symbol_index < 121
      · rw [if_pos hsym] at hfields
        obtain ⟨-, e1, e2, e3⟩ := hfields
        exact ⟨by omega, by omega, by omega, by omega, by omega⟩
      · rw [if_neg hsym] at hfields
        by_cases hic : s.idle_count + 1 < 2
        · rw [if_pos hic] at hfields
          obtain ⟨-, e1, e2, e3⟩ := hfields
          exact ⟨by omega, by omega, by omega, by omega, by omega⟩
        · rw [if_neg hic] at hfields
          obtain ⟨-, e1, e2, e3⟩ := hfields
          exact ⟨by omega, by omega, by omega, by omega, by omega⟩

lemma initState_inv : Inv initState := by
  refine ⟨?_, ?_, ?_, ?_, ?_⟩ <;> simp [initState, Inv]

lemma run_inv (n : Nat) : ∃ s, run n = some s ∧ Inv s := by
  induction n with
  | zero => exact ⟨initState, rfl, initState_inv⟩
  | succ n ih =>
    obtain ⟨s, hs, hinv⟩ := ih
    obtain ⟨t, ht, htinv⟩ := tick_inv s hinv
    refine ⟨t, ?_, htinv⟩
    show (tickN n initState).bind tick = some t
    rw [show tickN n initState = run n from rfl, hs, Option.some_bind, ht]

/-- Closed form for up to 31999 consecutive preamble ticks: the
preamble counter advances one per tick, the carrier phase advances
modulo 5, and the other counters are untouched. -/
lemma preamble_run (k : Nat) : ∀ (s : TxState), s.tx_phase = PREAMBLE_PHASE →
    s.carrier_phase ≤ 4 → k + s.preamble_count < 32000 →
    ∃ t, tickN k s = some t ∧ t.tx_phase = PREAMBLE_PHASE ∧
      t.carrier_phase = (s.carrier_phase + k) % 5 ∧
      t.preamble_count = s.preamble_count + k ∧
      t.sample_count = s.sample_count ∧ t.symbol_index = s.symbol_index ∧
      t.idle_count = s.idle_count := by
  induction k with
  | zero =>
    intro s h1 h2 h3
    exact ⟨s, rfl, h1, by omega, by omega, rfl, rfl, rfl⟩
  | succ k ih =>
    intro s h1 h2 h3
    obtain ⟨t, ht, hp1, hp2, hp3, hp4, hp5, hp6⟩ := ih s h1 h2 (by omega)
    obtain ⟨u, hu, hcar, hfields⟩ := tick_preamble_fields t hp1 (by omega)
    rw [if_pos (by omega : t.preamble_count + 1 < 32000)] at hfields
    obtain ⟨f1, f2, f3, f4, f5⟩ := hfields
    refine ⟨u, ?_, f1, by omega, by omega, by omega, by omega, by omega⟩
    show (tickN k s).bind tick = some u
    rw [ht, Option.some_bind, hu]

/-- Closed form for up to 61499 consecutive data-phase ticks starting
at symbol 0: every 500 ticks complete one symbol, the 121 frame
symbols are followed by idle symbols, and the carrier phase advances
modulo 5 throughout. -/
lemma data_run (k : Nat) : ∀ (s : TxState), s.tx_phase = DATA_PHASE →
    s.carrier_phase ≤ 4 → s.sample_count = 0 → s.symbol_index = 0 →
    s.idle_count = 0 → k < 61500 →
    ∃ t, tickN k s = some t ∧ t.tx_phase = DATA_PHASE ∧
      t.carrier_phase = (s.carrier_phase + k) % 5 ∧
      t.sample_count = k % 500 ∧
      t.symbol_index = min (k / 500) 121 ∧
      t.idle_count = k / 500 - 121 ∧
      t.preamble_count = s.preamble_count := by
  induction k with
  | zero =>
    intro s h1 h2 h3 h4 h5 hk
    exact ⟨s, rfl, h1, by omega, by omega, by omega, by omega, rfl⟩
  | succ k ih =>
    intro s h1 h2 h3 h4 h5 hk
    obtain ⟨t, ht, hp1, hp2, hp3, hp4, hp5, hp6⟩ := ih s h1 h2 h3 h4 h5 (by omega)
    obtain ⟨u, hu, hcar, hpc, hfields⟩ := tick_data_fields t
      (by rw [hp1]; decide) (by omega) (by omega)
    have hrun : tickN (k + 1) s = some u := by
      show (tickN k s).bind tick = some u
      rw [ht, Option.some_bind, hu]
    by_cases hsc : t.sample_count + 1 < 500
    · rw [if_pos hsc] at hfields
      obtain ⟨f1, f2, f3, f4⟩ := hfields
      exact ⟨u, hrun, by rw [f1, hp1], by omega, by omega, by omega, by omega, by omega⟩
    · rw [if_neg hsc] at hfields
      by_cases hsym : t.symbol_index < 121
      · rw [if_pos hsym] at hfields
        obtain ⟨f1, f2, f3, f4⟩ := hfields
        exact ⟨u, hrun, by rw [f1, hp1], by omega, by omega, by omega, by omega, by omega⟩
      · rw [if_neg hsym] at hfields
        by_cases hic : t.idle_count + 1 < 2
        · rw [if_pos hic] at hfields
          obtain ⟨f1, f2, f3, f4⟩ := hfields
          exact ⟨u, hrun, by rw [f1, hp1], by omega, by omega, by omega, by omega, by omega⟩
        · exfalso
          omega

lemma tickN_add (m n : Nat) (s : TxState) :
    tickN (m + n) s = (tickN m s).bind (tickN n) := by
  induction n with
  | zero => simp [tickN]
  | succ n ih =>
    show tickN ((m + n) + 1) s = _
    rw [show tickN ((m + n) + 1) s = (tickN (m + n) s).bind tick from rfl, ih,
      Option.bind_assoc]
    rfl

/-- The preamble-to-data transition: starting from a preamble state
with a zero preamble counter, tick 32000 enters the data phase with
the data counters reset. -/
lemma preamble_to_data (s : TxState) (h1 : s.tx_phase = PREAMBLE_PHASE)
    (h2 : s.carrier_phase ≤ 4) (h3 : s.preamble_count = 0) :
    ∃ t, tickN 32000 s = some t ∧ t.tx_phase = DATA_PHASE ∧
      t.carrier_phase = (s.carrier_phase + 32000) % 5 ∧
      t.preamble_count = 0 ∧ t.sample_count = 0 ∧ t.symbol_index = 0 ∧
      t.idle_count = s.idle_count := by
  obtain ⟨t, ht, hp1, hp2, hp3, hp4, hp5, hp6⟩ := preamble_run 31999 s h1 h2 (by omega)
  obtain ⟨u, hu, hcar, hfields⟩ := tick_preamble_fields t hp1 (by omega)
  rw [if_neg (by omega : ¬ t.preamble_count + 1 < 32000)] at hfields
  obtain ⟨f1, f2, f3, f4, f5⟩ := hfields
  refine ⟨u, ?_, f1, by omega, by omega, by omega, by omega, by omega⟩
  rw [show (32000 : Nat) = 31999 + 1 from by norm_num]
  show (tickN 31999 s).bind tick = some u
  rw [ht, Option.some_bind, hu]

/-- The data-to-preamble transition: a full data burst of 61500 ticks
(121 symbols of 500 ticks plus 2 idle symbols of 500 ticks) returns
to the preamble phase with preamble and idle counters zero. -/
lemma data_to_preamble (s : TxState) (h1 : s.tx_phase = DATA_PHASE)
    (h2 : s.carrier_phase ≤ 4) (h3 : s.sample_count = 0) (h4 : s.symbol_index = 0)
    (h5 : s.idle_count = 0) :
    ∃ t, tickN 61500 s = some t ∧ t.tx_phase = PREAMBLE_PHASE ∧
      t.carrier_phase = (s.carrier_phase + 61500) % 5 ∧
      t.preamble_count = s.preamble_count ∧ t.sample_count = 0 ∧
      t.idle_count = 0 := by
  obtain ⟨t, ht, hp1, hp2, hp3, hp4, hp5, hp6⟩ := data_run 61499 s h1 h2 h3 h4 h5 (by omega)
  obtain ⟨u, hu, hcar, hpc, hfields⟩ := tick_data_fields t
    (by rw [hp1]; decide) (by omega) (by omega)
  rw [if_neg (by omega : ¬ t.sample_count + 1 < 500),
    if_neg (by omega : ¬ t.symbol_index < 121),
    if_neg (by omega : ¬ t.idle_count + 1 < 2)] at hfields
  obtain ⟨f1, f2, f3, f4⟩ := hfields
  refine ⟨u, ?_, f1, by omega, by omega, by omega, by omega⟩
  rw [show (61500 : Nat) = 61499 + 1 from by norm_num]
  show (tickN 61499 s).bind tick = some u
  rw [ht, Option.some_bind, hu]

/-! ## Claim theorems -/

/-- Claim C1 (code bug evidence): the five entries of
`precomputed_dac` do lie in `[0, 4095]`, but the symbol table does
not: six of the ten entries of `precomputed_symbol_dac` are outside
`[0, 4095]`.  In particular entry `[0][4]` evaluates to 6093 > 4095,
and entry `[0][1]`, whose pre-cast value is the negative number
-849, wraps to 64687 under the `uint16_t` cast. -/
theorem precomputed_symbol_dac_out_of_range :
    precomputed_dac.all (fun v => decide (v ≤ 4095)) = true ∧
    precomputed_symbol_dac.map (fun row => row.filter (fun v => decide (4095 < v))) =
      [[64687, 63935, 6093], [6093, 63935, 64687]] ∧
    (precomputed_symbol_dac.get? 0).bind (fun row => row.get? 4) = some 6093 ∧
    (precomputed_symbol_dac.get? 0).bind (fun row => row.get? 1) = some 64687 ∧
    ¬ (6093 : Nat) ≤ 4095 := by decide

/-- Claim C2: from a preamble state with zero preamble, sample and
idle counters, the machine stays in the preamble for exactly 32000
ticks, enters the data phase with `symbol_index`, `sample_count` and
`preamble_count` reset to 0, stays in the data phase for exactly
61500 ticks (each of the 121 frame bits occupying 500 ticks, then 2
idle symbol periods with `symbol_index = 121`), and is back in the
preamble phase after 93500 ticks with zero preamble and idle
counters. -/
theorem tx_cycle_timing (s : TxState)
    (hph : s.tx_phase = PREAMBLE_PHASE) (hpc : s.preamble_count = 0)
    (hsc : s.sample_count = 0) (hic : s.idle_count = 0)
    (hcp : s.carrier_phase ≤ 4) :
    (∀ k, k < 32000 → ∃ t, tickN k s = some t ∧ t.tx_phase = PREAMBLE_PHASE) ∧
    (∃ t, tickN 32000 s = some t ∧ t.tx_phase = DATA_PHASE ∧
      t.symbol_index = 0 ∧ t.sample_count = 0 ∧ t.preamble_count = 0) ∧
    (∀ k, k < 61500 → ∃ t, tickN (32000 + k) s = some t ∧ t.tx_phase = DATA_PHASE ∧
      t.symbol_index = min (k / 500) 121 ∧ t.sample_count = k % 500) ∧
    (∃ t, tickN 93500 s = some t ∧ t.tx_phase = PREAMBLE_PHASE ∧
      t.preamble_count = 0 ∧ t.idle_count = 0) := by
  obtain ⟨d, hd, hd1, hd2, hd3, hd4, hd5, hd6⟩ := preamble_to_data s hph hcp hpc
  refine ⟨?_, ⟨d, hd, hd1, hd5, hd4, hd3⟩, ?_, ?_⟩
  · intro k hk
    obtain ⟨t, ht, h1, -⟩ := preamble_run k s hph hcp (by omega)
    exact ⟨t, ht, h1⟩
  · intro k hk
    obtain ⟨u, hu, hu1, hu2, hu3, hu4, hu5, hu6⟩ :=
      data_run k d hd1 (by omega) hd4 hd5 (by omega) hk
    refine ⟨u, ?_, hu1, hu4, hu3⟩
    rw [tickN_add, hd, Option.some_bind, hu]
  · obtain ⟨u, hu, hu1, hu2, hu3, hu4, hu5⟩ :=
      data_to_preamble d hd1 (by omega) hd4 hd5 (by omega)
    refine ⟨u, ?_, hu1, by omega, hu5⟩
    rw [show (93500 : Nat) = 32000 + 61500 from by norm_num, tickN_add, hd,
      Option.some_bind, hu]

/-- Witness for claim C2, instantiated at the initial zeroed state:
after 93500 ticks the machine is back in the preamble phase with zero
preamble and idle counters. -/
theorem tx_cycle_timing_witness :
    ∃ t, tickN 93500 initState = some t ∧ t.tx_phase = PREAMBLE_PHASE ∧
      t.preamble_count = 0 ∧ t.idle_count = 0 :=
  (tx_cycle_timing initState rfl rfl rfl rfl (by decide)).2.2.2

/-- Claim C3: every completed invocation of the tick handler advances
`carrier_phase` by exactly one step modulo 5, in both phases and
across transitions; consequently after N ticks from the initial state
the carrier phase equals `N mod 5`. -/
theorem carrier_phase_advance :
    (∀ s t, tick s = some t → t.carrier_phase = (s.carrier_phase + 1) % 5) ∧
    (∀ n, ∃ s, run n = some s ∧ s.carrier_phase = n % 5) := by
  refine ⟨tick_some_carrier, ?_⟩
  intro n
  induction n with
  | zero => exact ⟨initState, rfl, rfl⟩
  | succ n ih =>
    obtain ⟨s, hs, hcar⟩ := ih
    obtain ⟨s2, hs2, hinv⟩ := run_inv n
    rw [hs] at hs2
    cases hs2
    obtain ⟨t, ht, -⟩ := tick_inv s hinv
    refine ⟨t, ?_, ?_⟩
    · show (tickN n initState).bind tick = some t
      rw [show tickN n initState = run n from rfl, hs, Option.some_bind, ht]
    · rw [tick_some_carrier s t ht, hcar]
      omega

/-- Witness for claim C3: the first tick from the initial state
advances the carrier phase from 0 to 1 = (0 + 1) mod 5. -/
theorem carrier_phase_advance_witness :
    (TxState.mk 0 1 1 0 0 0 3906).carrier_phase = (initState.carrier_phase + 1) % 5 :=
  carrier_phase_advance.1 initState (TxState.mk 0 1 1 0 0 0 3906) (by decide)

/-- Claim C8: in every state reachable from the initial zeroed state,
the carrier phase is in `[0,4]`, the symbol index never exceeds 121,
the sample counter stays below 500, the preamble counter below 32000
and the idle counter below 2; moreover the tick handler always
completes from such a state (all its table accesses are in
bounds). -/
theorem reachable_state_invariant (n : Nat) :
    ∃ s, run n = some s ∧ s.carrier_phase ≤ 4 ∧ s.symbol_index ≤ 121 ∧
      s.sample_count < 500 ∧ s.preamble_count < 32000 ∧ s.idle_count < 2 ∧
      ∃ t, tick s = some t := by
  obtain ⟨s, hs, hinv⟩ := run_inv n
  obtain ⟨h1, h2, h3, h4, h5⟩ := hinv
  obtain ⟨t, ht, -⟩ := tick_inv s ⟨h1, h2, h3, h4, h5⟩
  exact ⟨s, hs, h1, h2, h3, h4, h5, t, ht⟩

set_option maxRecDepth 100000 in
/-- Claim C4: `build_beacon_frame` writes exactly 121 buffer elements
(the final running bit index is 121) and the buffer holds, in order:
15 one bits, the 9-bit MSB-first frame sync 0x1AC, the 10-bit
MSB-first country code 0x2A5 = 1010100101, the 24-bit aircraft id,
the 21-bit position, the 20-bit offset, the 10 MSB-first bits of
`bch_encode_31_21 position` and the 12 MSB-first bits of
`bch_encode_12_12 (aircraft_id &&& 0xFFF)`. -/
theorem build_beacon_frame_layout :
    build_beacon_frame.2 = 121 ∧
    beacon_frame.length = 121 ∧
    beacon_frame.take 15 = List.replicate 15 1 ∧
    (beacon_frame.drop 15).take 9 = bitsMSB 9 frame_sync ∧
    (beacon_frame.drop 24).take 10 = [1, 0, 1, 0, 1, 0, 0, 1, 0, 1] ∧
    (beacon_frame.drop 24).take 10 = bitsMSB 10 country_code ∧
    (beacon_frame.drop 34).take 24 = bitsMSB 24 aircraft_id ∧
    (beacon_frame.drop 58).take 21 = bitsMSB 21 position ∧
    (beacon_frame.drop 79).take 20 = bitsMSB 20 position_offset ∧
    (beacon_frame.drop 99).take 10 = bitsMSB 10 (bch_encode_31_21 position) ∧
    (beacon_frame.drop 109).take 12 = bitsMSB 12 (bch_encode_12_12 (aircraft_id &&& 0xFFF)) := by
  decide

/-- Claim C5: the C function `bch_encode_31_21` agrees with the
reference LFSR division of the specification (the model that keeps
the shift register reduced to 10 bits at every step) on every 21-bit
input. -/
theorem bch_31_21_refines_spec (data : Nat) (h : data < 2 ^ 21) :
    bch_encode_31_21 data = bch31_21_spec data := by
  unfold bch_encode_31_21 bch31_21_spec
  have h0 : bch_spec_loop 0 (data &&& 0x1FFFFF) 21 =
      bch_loop 0 (data &&& 0x1FFFFF) 21 % 1024 := by
    have hm := bch_spec_loop_mod 21 0 (data &&& 0x1FFFFF)
    simpa using hm
  rw [h0]
  have h3ff : (0x3FF : Nat) = 2 ^ 10 - 1 := by norm_num
  rw [h3ff, Nat.and_pow_two_sub_one_eq_mod, Nat.and_pow_two_sub_one_eq_mod]
  norm_num

/-- Witness for claim C5 at the default position payload. -/
theorem bch_31_21_refines_spec_witness :
    0x1A5F3 < 2 ^ 21 ∧ bch_encode_31_21 0x1A5F3 = bch31_21_spec 0x1A5F3 :=
  ⟨by norm_num, bch_31_21_refines_spec 0x1A5F3 (by norm_num)⟩

/-- Claim C6: the BCH(31,21) encoder is GF(2)-linear on 21-bit
inputs, and maps 0 to 0. -/
theorem bch_31_21_linear (A B : Nat) (hA : A < 2 ^ 21) (hB : B < 2 ^ 21) :
    bch_encode_31_21 (A ^^^ B) = bch_encode_31_21 A ^^^ bch_encode_31_21 B ∧
    bch_encode_31_21 0 = 0 := by
  constructor
  · have hlin := bch_loop_linear 21 0 0 (A &&& 0x1FFFFF) (B &&& 0x1FFFFF)
    simp only [Nat.zero_xor] at hlin
    unfold bch_encode_31_21
    rw [xor_and_right, hlin, xor_and_right]
  · decide

/-- Witness for claim C6 at two concrete 21-bit inputs. -/
theorem bch_31_21_linear_witness :
    0x1A5F3 < 2 ^ 21 ∧ 0x0F0F0 < 2 ^ 21 ∧
    (bch_encode_31_21 (0x1A5F3 ^^^ 0x0F0F0) =
        bch_encode_31_21 0x1A5F3 ^^^ bch_encode_31_21 0x0F0F0 ∧
      bch_encode_31_21 0 = 0) :=
  ⟨by norm_num, by norm_num, bch_31_21_linear 0x1A5F3 0x0F0F0 (by norm_num) (by norm_num)⟩

/-- Claim C7 counterexample: `bch_encode_12_12` does not mask its
input to 12 bits; at input 0x1000 it returns 0x1000, not the low 12
bits 0. -/
theorem bch_12_12_no_mask_counterexample :
    ¬ (bch_encode_12_12 0x1000 = 0x1000 &&& 0xFFF) := by decide

/-- Claim C7 (amended): `bch_encode_12_12` is the identity on its
full 16-bit input; no masking happens inside the encoder, the 12-bit
restriction is enforced by the caller, which passes
`aircraft_id &&& 0xFFF`. -/
theorem bch_12_12_identity (x : Nat) (h : x < 65536) : bch_encode_12_12 x = x := rfl

/-- Witness for amended claim C7 at the value the frame builder
actually passes. -/
theorem bch_12_12_identity_witness :
    0xF3C < 65536 ∧ bch_encode_12_12 0xF3C = 0xF3C :=
  ⟨by norm_num, bch_12_12_identity 0xF3C (by norm_num)⟩

/-- Claim C9: the arithmetic mean of the five entries of
`precomputed_dac` differs from 2048 by at most 2. -/
theorem carrier_dac_mean_centered :
    |(precomputed_dac.sum : ℚ) / 5 - 2048| ≤ 2 := by
  have hsum : precomputed_dac.sum = 10238 := by decide
  rw [hsum, abs_le]
  constructor <;> norm_num

/-- Claim C10: the BCH(31,21) parity depends only on the low 21 bits
of its input, so callers need not pre-mask. -/
theorem bch_31_21_mask_free (x : Nat) (h : x < 2 ^ 32) :
    bch_encode_31_21 x = bch_encode_31_21 (x &&& 0x1FFFFF) := by
  unfold bch_encode_31_21
  rw [Nat.and_assoc, Nat.and_self]

/-- Witness for claim C10 at the all-ones 32-bit input. -/
theorem bch_31_21_mask_free_witness :
    0xFFFFFFFF < 2 ^ 32 ∧
    bch_encode_31_21 0xFFFFFFFF = bch_encode_31_21 (0xFFFFFFFF &&& 0x1FFFFF) :=
  ⟨by norm_num, bch_31_21_mask_free 0xFFFFFFFF (by norm_num)⟩

end Sarsat
